import Mathlib

/-
Verification development for the nfe-drop ingestion pipeline.

The Go sources are shallowly embedded: pure functions become Lean
functions, stateful code is explicit state passing, and external
collaborators (filesystem, XML decoder, SQL driver, AMQP broker,
time.Parse, sha256) are environment parameters supplied to the embedded
control flow.  Go float64 monetary values are modelled as exact
rationals: every operation the code performs on them (parse of a decimal
literal, comparison with zero) preserves sign and zero, which is all the
claims below inspect.  Go int values are modelled as unbounded Int; the
places where Go truncates to int32 are modelled with an explicit wrap.
-/

namespace NfeDrop

/-! ## Byte strings -/

/-- Raw file bytes, as handed around by os.ReadFile / sha256 / xml.Unmarshal. -/
abbrev Bytes := List Nat

/-! ## Go string helpers used by the sources -/

/-- Whitespace recognised by strings.TrimSpace (ASCII subset of Unicode
White_Space; the sources only ever trim XML text nodes where this is the
relevant range). -/
def goSpace (c : Char) : Bool :=
  c = ' ' || c = '\t' || c = '\n' || c = '\r' || c = '\x0b' || c = '\x0c'

/-- strings.TrimSpace. -/
def trimSpace (s : String) : String :=
  ⟨((s.data.dropWhile goSpace).reverse.dropWhile goSpace).reverse⟩

/-- strings.ToLower, on the ASCII range the sources lower-case
(file extensions, env-var values, archive entry names). -/
def toLowerStr (s : String) : String :=
  ⟨s.data.map Char.toLower⟩

/-- onlyDigits from the parser: keep the characters in the range 0-9. -/
def onlyDigits (s : String) : String :=
  ⟨s.data.filter fun c => decide ('0' ≤ c) && decide (c ≤ '9')⟩

/-- strings.TrimPrefix for the literal prefix NFe, as used by extractChave. -/
def trimNFePre (s : String) : String :=
  if ('N' :: 'F' :: 'e' :: []).isPrefixOf s.data then ⟨s.data.drop 3⟩ else s

/-- extractChave from the parser: trim, then drop a literal NFe lead-in. -/
def extractChave (id : String) : String :=
  trimNFePre (trimSpace id)

/-- filepath.Ext restricted to base names (no path separators): the suffix
beginning at the final dot, empty when there is no dot. -/
def extOf (s : String) : String :=
  let afterRev := s.data.reverse.takeWhile fun c => c ≠ '.'
  if afterRev.length = s.data.length then "" else ⟨'.' :: afterRev.reverse⟩

/-- filepath.Base restricted to the non-empty, no-trailing-separator paths
the worker builds with filepath.Join: the component after the last slash. -/
def baseOf (s : String) : String :=
  ⟨(s.data.reverse.takeWhile fun c => c ≠ '/').reverse⟩

/-- Substring test (Bool form of strings.Contains). -/
def hasSub (hay needle : List Char) : Bool :=
  match hay with
  | [] => needle.isEmpty
  | _ :: rest => needle.isPrefixOf hay || hasSub rest needle

/-- isZoneIdentifier from the watcher. -/
def isZoneIdentifier (name : String) : Bool :=
  hasSub (toLowerStr name).data "zone.identifier".data

/-- strings.TrimPrefix for the literal dot, used to turn an extension into
a job kind. -/
def dropDotPre (s : String) : String :=
  if ('.' :: []).isPrefixOf s.data then ⟨s.data.drop 1⟩ else s

/-! ## Go number parsing (strconv) -/

/-- Digit run to a natural number. -/
def digitsToNat (ds : List Char) : Nat :=
  ds.foldl (fun a c => a * 10 + (c.toNat - '0'.toNat)) 0

/-- strconv.Atoi on the in-range inputs the pipeline sees: optional sign,
then a non-empty digit run; anything else is an error (none).  The int64
overflow error of the real function is not modelled: no caller feeds it
a 19-digit number. -/
def atoiGo (s : String) : Option Int :=
  match s.data with
  | [] => none
  | c :: cs =>
    let signed : Bool × List Char :=
      if c = '+' then (false, cs) else if c = '-' then (true, cs) else (false, c :: cs)
    match signed with
    | (neg, ds) =>
      if ds = [] then none
      else if ds.all Char.isDigit then
        some (if neg then -(digitsToNat ds : Int) else (digitsToNat ds : Int))
      else none

/-- parseInt from the parser: trim, Atoi, 0 on error or empty. -/
def parseIntGo (v : String) : Int :=
  let v := trimSpace v
  if v = "" then 0
  else match atoiGo v with
    | none => 0
    | some i => i

/-- Exact value of a decimal mantissa/exponent literal:
sign times digits, scaled by 10 to the (exponent minus fraction length). -/
def decValue (neg : Bool) (m : Nat) (fracLen : Nat) (e : Int) : Rat :=
  let sm : Int := if neg then -(m : Int) else (m : Int)
  let ex : Int := e - (fracLen : Int)
  if 0 ≤ ex then mkRat (sm * (10 : Int) ^ ex.toNat) 1
  else mkRat sm ((10 : Nat) ^ (-ex).toNat)

/-- Mantissa of a decimal literal: digits with at most one dot and at least
one digit overall.  Returns the digit value and the fraction length. -/
def decMantissa (cs : List Char) : Option (Nat × Nat) :=
  let intPart := cs.takeWhile fun c => c ≠ '.'
  let rest := cs.drop intPart.length
  if intPart.all Char.isDigit then
    match rest with
    | [] => if intPart = [] then none else some (digitsToNat intPart, 0)
    | _ :: frac =>
      if frac.all Char.isDigit && (intPart ≠ [] || frac ≠ []) then
        some (digitsToNat (intPart ++ frac), frac.length)
      else none
  else none

/-- Exponent suffix of a decimal literal: optional sign then digits. -/
def decExp (cs : List Char) : Option Int :=
  match cs with
  | [] => none
  | c :: cs2 =>
    let signed : Bool × List Char :=
      if c = '+' then (false, cs2) else if c = '-' then (true, cs2) else (false, c :: cs2)
    match signed with
    | (neg, ds) =>
      if ds ≠ [] && ds.all Char.isDigit then
        some (if neg then -(digitsToNat ds : Int) else (digitsToNat ds : Int))
      else none

/-- Exact value of the decimal forms accepted by strconv.ParseFloat:
optional sign, digits with an optional dot, optional e/E exponent.
The exotic inf/nan/hexadecimal forms of the real function never occur in
monetary XML text and are not modelled.  The value is kept as an exact
rational; float64 rounding preserves sign and zero, which is all the
code observes. -/
def decFloatVal (cs : List Char) : Option Rat :=
  match cs with
  | [] => none
  | c :: cs2 =>
    let signed : Bool × List Char :=
      if c = '+' then (false, cs2) else if c = '-' then (true, cs2) else (false, c :: cs2)
    match signed with
    | (neg, body) =>
      let mant := body.takeWhile fun c => c ≠ 'e' && c ≠ 'E'
      let rest := body.drop mant.length
      match decMantissa mant with
      | none => none
      | some (m, fracLen) =>
        match rest with
        | [] => some (decValue neg m fracLen 0)
        | _ :: expPart =>
          match decExp expPart with
          | none => none
          | some e => some (decValue neg m fracLen e)

/-- Replace every comma by a dot (strings.ReplaceAll with a one-char
pattern). -/
def commaToDot (s : String) : String :=
  ⟨s.data.map fun c => if c = ',' then '.' else c⟩

/-- parseFloat from the parser: trim; empty is 0; commas become dots;
unparsable is 0. -/
def parseFloatGo (v : String) : Rat :=
  let v := trimSpace v
  if v = "" then 0
  else
    let v := commaToDot v
    match decFloatVal v.data with
    | none => 0
    | some f => f

/-! ## Decoded XML documents (the structs fed to xml.Unmarshal)

Each structure mirrors the Go struct of the parser; a Go pointer field
becomes an Option, a repeated element becomes a List, and every leaf the
Go code reads as a string stays a String.  A missing XML element leaves
the Go zero value, so defaults are the empty string, 0 and none. -/

structure infProt where
  ChNFe : String := ""
  DhRecb : String := ""
  NProt : String := ""
  CStat : String := ""
deriving Repr, DecidableEq

structure protNFe where
  InfProt : infProt := {}
deriving Repr, DecidableEq

structure ide where
  Modelo : Int := 0
  Serie : Int := 0
  NNF : Int := 0
  DhEmi : String := ""
  DEmi : String := ""
  TpNF : Int := 0
  TpAmb : Int := 0
  NatOp : String := ""
deriving Repr, DecidableEq

structure emit where
  CNPJ : String := ""
  XNome : String := ""
deriving Repr, DecidableEq

structure destDoc where
  CNPJ : String := ""
  CPF : String := ""
  XNome : String := ""
deriving Repr, DecidableEq

structure transp where
  ModFrete : String := ""
deriving Repr, DecidableEq

structure icmsTot where
  VNF : String := ""
  VProd : String := ""
  VDesc : String := ""
  VICMS : String := ""
  VIPI : String := ""
  VPIS : String := ""
  VCOFINS : String := ""
  VII : String := ""
  VFrete : String := ""
  VSeg : String := ""
deriving Repr, DecidableEq

structure totalDoc where
  ICMSTot : icmsTot := {}
deriving Repr, DecidableEq

structure prodDoc where
  CProd : String := ""
  CEAN : String := ""
  XProd : String := ""
  NCM : String := ""
  CFOP : String := ""
  UCom : String := ""
  QCom : String := ""
  VUnCom : String := ""
  VProd : String := ""
  VFrete : String := ""
  VSeg : String := ""
  VDesc : String := ""
  VOutro : String := ""
  IndTot : String := ""
deriving Repr, DecidableEq

structure icmsVal where
  VBC : String := ""
  VICMS : String := ""
deriving Repr, DecidableEq

structure icmsSTVal where
  VBC : String := ""
  VICMS : String := ""
  VBCST : String := ""
  VICMSST : String := ""
deriving Repr, DecidableEq

structure icmsSTOnly where
  VBCST : String := ""
  VICMSST : String := ""
deriving Repr, DecidableEq

structure icmsSimple where
deriving Repr, DecidableEq

structure icmsGroup where
  ICMS00 : Option icmsVal := none
  ICMS10 : Option icmsSTVal := none
  ICMS20 : Option icmsVal := none
  ICMS30 : Option icmsSTVal := none
  ICMS40 : Option icmsSimple := none
  ICMS51 : Option icmsVal := none
  ICMS60 : Option icmsSTOnly := none
  ICMS70 : Option icmsSTVal := none
  ICMS90 : Option icmsSTVal := none
  ICMSPart : Option icmsSTVal := none
  ICMSSN101 : Option icmsSimple := none
  ICMSSN102 : Option icmsSimple := none
  ICMSSN201 : Option icmsSTVal := none
  ICMSSN202 : Option icmsSTVal := none
  ICMSSN500 : Option icmsSTOnly := none
  ICMSSN900 : Option icmsSTVal := none
deriving Repr, DecidableEq

structure ipiTrib where
  VIPI : String := ""
deriving Repr, DecidableEq

structure ipiNT where
deriving Repr, DecidableEq

structure ipiDoc where
  Trib : Option ipiTrib := none
  NT : Option ipiNT := none
deriving Repr, DecidableEq

structure pisVal where
  VPIS : String := ""
deriving Repr, DecidableEq

structure pisDoc where
  Aliq : Option pisVal := none
  Qtde : Option pisVal := none
  NT : Option pisVal := none
  Outr : Option pisVal := none
deriving Repr, DecidableEq

structure cofinsVal where
  VCOFINS : String := ""
deriving Repr, DecidableEq

structure cofinsDoc where
  Aliq : Option cofinsVal := none
  Qtde : Option cofinsVal := none
  NT : Option cofinsVal := none
  Outr : Option cofinsVal := none
deriving Repr, DecidableEq

structure imposto where
  ICMS : icmsGroup := {}
  IPI : Option ipiDoc := none
  PIS : Option pisDoc := none
  COFINS : Option cofinsDoc := none
deriving Repr, DecidableEq

structure detDoc where
  NItem : String := ""
  Prod : prodDoc := {}
  Imposto : imposto := {}
deriving Repr, DecidableEq

structure dupDoc where
  Numero : String := ""
  DVenc : String := ""
  Valor : String := ""
deriving Repr, DecidableEq

structure cobr where
  Duplicatas : List dupDoc := []
deriving Repr, DecidableEq

structure cardDoc where
  CNPJ : String := ""
  Bandeira : String := ""
  Aut : String := ""
deriving Repr, DecidableEq

structure detPag where
  IndPag : String := ""
  Meio : String := ""
  Valor : String := ""
  Card : Option cardDoc := none
deriving Repr, DecidableEq

structure pagDoc where
  Det : List detPag := []
deriving Repr, DecidableEq

structure infNFe where
  ID : String := ""
  Versao : String := ""
  Ide : ide := {}
  Emit : emit := {}
  Dest : Option destDoc := none
  Det : List detDoc := []
  Total : totalDoc := {}
  Transp : Option transp := none
  Cobr : Option cobr := none
  Pag : Option pagDoc := none
deriving Repr, DecidableEq

structure nfeDoc where
  InfNFe : infNFe := {}
deriving Repr, DecidableEq

structure nfeProc where
  NFe : nfeDoc := {}
  ProtNFe : Option protNFe := none
deriving Repr, DecidableEq

/-! ## Parsed output records -/

structure ParsedItem where
  NItem : Int := 0
  Codigo : String := ""
  CodigoEAN : String := ""
  Descricao : String := ""
  NCM : String := ""
  CFOP : String := ""
  Unidade : String := ""
  Quantidade : Rat := 0
  ValorUnitario : Rat := 0
  ValorTotalBruto : Rat := 0
  ValorFrete : Rat := 0
  ValorSeguro : Rat := 0
  ValorDesconto : Rat := 0
  ValorOutros : Rat := 0
  IndTotal : Int := 0
  BaseCalculoICMS : Rat := 0
  ValorICMS : Rat := 0
  BaseCalculoICMSST : Rat := 0
  ValorICMSST : Rat := 0
  ValorIPI : Rat := 0
  ValorPIS : Rat := 0
  ValorCOFINS : Rat := 0
deriving Repr, DecidableEq

structure ParsedDuplicata where
  Numero : String := ""
  DataVencimento : String := ""
  Valor : Rat := 0
deriving Repr, DecidableEq

structure ParsedPagamento where
  IndicadorPagamento : Option Int := none
  MeioPagamento : String := ""
  Valor : Rat := 0
  CNPJCredenciadora : String := ""
  BandeiraCartao : String := ""
  CodigoAutorizacao : String := ""
deriving Repr, DecidableEq

structure ParsedNFe where
  ChaveAcesso : String := ""
  HashIntegridade : String := ""
  Modelo : Int := 0
  Serie : Int := 0
  Numero : Int := 0
  EmissaoDate : String := ""
  TipoOperacao : Int := 0
  TipoAmbiente : Int := 0
  NaturezaOperacao : String := ""
  ProtocoloAut : String := ""
  DataAutorizacao : String := ""
  CodigoStatus : Int := 0
  EmitenteCNPJ : String := ""
  EmitenteRazao : String := ""
  DestCNPJCPF : String := ""
  DestRazao : String := ""
  ValorTotalNota : Rat := 0
  ValorProdutos : Rat := 0
  ValorDesconto : Rat := 0
  ValorICMS : Rat := 0
  ValorIPI : Rat := 0
  ValorPIS : Rat := 0
  ValorCOFINS : Rat := 0
  ValorII : Rat := 0
  ValorFrete : Rat := 0
  ValorSeguro : Rat := 0
  ModalidadeFrete : Int := 0
  XMLRaw : Bytes := []
  Itens : List ParsedItem := []
  Duplicatas : List ParsedDuplicata := []
  Pagamentos : List ParsedPagamento := []
deriving Repr, DecidableEq

/-! ## Tax extraction helpers -/

/-- extractICMS, checking the variant sub-elements in exactly the order of
the source: ICMS00, ICMS20, ICMS51, ICMS10, ICMS30, ICMS70, ICMS90,
ICMSPart, ICMSSN201, ICMSSN202, ICMSSN500, ICMSSN900.  The ICMS40,
ICMSSN101, ICMSSN102 and ICMS60 fields are never read, so a group holding
only those yields four zeroes. -/
def extractICMS (g : icmsGroup) : Rat × Rat × Rat × Rat :=
  match g.ICMS00 with
  | some v => (parseFloatGo v.VBC, parseFloatGo v.VICMS, 0, 0)
  | none =>
  match g.ICMS20 with
  | some v => (parseFloatGo v.VBC, parseFloatGo v.VICMS, 0, 0)
  | none =>
  match g.ICMS51 with
  | some v => (parseFloatGo v.VBC, parseFloatGo v.VICMS, 0, 0)
  | none =>
  match g.ICMS10 with
  | some v => (parseFloatGo v.VBC, parseFloatGo v.VICMS, parseFloatGo v.VBCST, parseFloatGo v.VICMSST)
  | none =>
  match g.ICMS30 with
  | some v => (0, 0, parseFloatGo v.VBCST, parseFloatGo v.VICMSST)
  | none =>
  match g.ICMS70 with
  | some v => (parseFloatGo v.VBC, parseFloatGo v.VICMS, parseFloatGo v.VBCST, parseFloatGo v.VICMSST)
  | none =>
  match g.ICMS90 with
  | some v => (parseFloatGo v.VBC, parseFloatGo v.VICMS, parseFloatGo v.VBCST, parseFloatGo v.VICMSST)
  | none =>
  match g.ICMSPart with
  | some v => (parseFloatGo v.VBC, parseFloatGo v.VICMS, parseFloatGo v.VBCST, parseFloatGo v.VICMSST)
  | none =>
  match g.ICMSSN201 with
  | some v => (0, 0, parseFloatGo v.VBCST, parseFloatGo v.VICMSST)
  | none =>
  match g.ICMSSN202 with
  | some v => (0, 0, parseFloatGo v.VBCST, parseFloatGo v.VICMSST)
  | none =>
  match g.ICMSSN500 with
  | some v => (0, 0, parseFloatGo v.VBCST, parseFloatGo v.VICMSST)
  | none =>
  match g.ICMSSN900 with
  | some v => (parseFloatGo v.VBC, parseFloatGo v.VICMS, parseFloatGo v.VBCST, parseFloatGo v.VICMSST)
  | none => (0, 0, 0, 0)

/-- extractIPI: IPITrib value when present, else 0. -/
def extractIPI (i : Option ipiDoc) : Rat :=
  match i with
  | none => 0
  | some i =>
    match i.Trib with
    | some t => parseFloatGo t.VIPI
    | none => 0

/-- Helper for the sequential present-and-non-empty tests of extractPIS:
the value string when the sub-element exists and its value is non-empty. -/
def pisValNonempty (v : Option pisVal) : Option String :=
  match v with
  | some x => if x.VPIS ≠ "" then some x.VPIS else none
  | none => none

/-- extractPIS: first of Aliq, Qtde, NT, Outr with a non-empty value. -/
def extractPIS (p : Option pisDoc) : Rat :=
  match p with
  | none => 0
  | some p =>
    match pisValNonempty p.Aliq with
    | some s => parseFloatGo s
    | none =>
    match pisValNonempty p.Qtde with
    | some s => parseFloatGo s
    | none =>
    match pisValNonempty p.NT with
    | some s => parseFloatGo s
    | none =>
    match pisValNonempty p.Outr with
    | some s => parseFloatGo s
    | none => 0

/-- Helper for the sequential present-and-non-empty tests of
extractCOFINS. -/
def cofinsValNonempty (v : Option cofinsVal) : Option String :=
  match v with
  | some x => if x.VCOFINS ≠ "" then some x.VCOFINS else none
  | none => none

/-- extractCOFINS: the four-way selection analogous to extractPIS. -/
def extractCOFINS (c : Option cofinsDoc) : Rat :=
  match c with
  | none => 0
  | some c =>
    match cofinsValNonempty c.Aliq with
    | some s => parseFloatGo s
    | none =>
    match cofinsValNonempty c.Qtde with
    | some s => parseFloatGo s
    | none =>
    match cofinsValNonempty c.NT with
    | some s => parseFloatGo s
    | none =>
    match cofinsValNonempty c.Outr with
    | some s => parseFloatGo s
    | none => 0

/-- buildItemFromDet: product fields, quantities, values and taxes of one
det entry. -/
def buildItemFromDet (d : detDoc) : ParsedItem :=
  let icms := extractICMS d.Imposto.ICMS
  { NItem := parseIntGo d.NItem
    Codigo := trimSpace d.Prod.CProd
    CodigoEAN := trimSpace d.Prod.CEAN
    Descricao := trimSpace d.Prod.XProd
    NCM := trimSpace d.Prod.NCM
    CFOP := trimSpace d.Prod.CFOP
    Unidade := trimSpace d.Prod.UCom
    Quantidade := parseFloatGo d.Prod.QCom
    ValorUnitario := parseFloatGo d.Prod.VUnCom
    ValorTotalBruto := parseFloatGo d.Prod.VProd
    ValorFrete := parseFloatGo d.Prod.VFrete
    ValorSeguro := parseFloatGo d.Prod.VSeg
    ValorDesconto := parseFloatGo d.Prod.VDesc
    ValorOutros := parseFloatGo d.Prod.VOutro
    IndTotal := parseIntGo d.Prod.IndTot
    BaseCalculoICMS := icms.1
    ValorICMS := icms.2.1
    BaseCalculoICMSST := icms.2.2.1
    ValorICMSST := icms.2.2.2
    ValorIPI := extractIPI d.Imposto.IPI
    ValorPIS := extractPIS d.Imposto.PIS
    ValorCOFINS := extractCOFINS d.Imposto.COFINS }

/-! ## Date normalization -/

/-- Shape test of normalizeDateYMD: ten characters with dashes at
positions 4 and 7. -/
def looksLikeYMD (d : String) : Bool :=
  d.data.length = 10 && d.data.get? 4 = some '-' && d.data.get? 7 = some '-'

/-- normalizeDateYMD.  The time.Parse attempts over the three layouts
followed by Format of the calendar date are an external library call,
supplied as the deterministic function tp (none models all layouts
failing). -/
def normalizeDateYMD (tp : String → Option String) (d : String) : String :=
  let d := trimSpace d
  if d = "" then ""
  else if looksLikeYMD d then d
  else
    match tp d with
    | some s => s
    | none => if 10 ≤ d.data.length then ⟨d.data.take 10⟩ else d

/-- normalizeYMDDate (used for dVenc): trim and truncate to ten
characters. -/
def normalizeYMDDate (d : String) : String :=
  let d := trimSpace d
  if d = "" then ""
  else if 10 ≤ d.data.length then ⟨d.data.take 10⟩ else d

/-! ## buildParsedFrom -/

/-- The two shapes the source passes to buildParsedFrom.  The Go function
takes an interface value and errors on any other type; both call sites
pass one of these two, so the embedding makes that exhaustive. -/
inductive buildSrc
  | proc (p : nfeProc)
  | bare (n : nfeDoc)
deriving Repr, DecidableEq

/-- The infNFe and optional protNFe selected by the type switch at the top
of buildParsedFrom. -/
def buildSrcParts (v : buildSrc) : infNFe × Option protNFe :=
  match v with
  | .proc t => (t.NFe.InfNFe, t.ProtNFe)
  | .bare t => (t.InfNFe, none)

/-- buildParsedFrom: header, access key, totals, protocol, items,
receivables and payments of the accepted document. -/
def buildParsedFrom (tp : String → Option String) (v : buildSrc)
    (xmlRaw : Bytes) (hashHex : String) : ParsedNFe :=
  let parts := buildSrcParts v
  let inf := parts.1
  let prot := parts.2
  let chave0 : String :=
    match prot with
    | some pr => if pr.InfProt.ChNFe ≠ "" then onlyDigits pr.InfProt.ChNFe else ""
    | none => ""
  let chave := if chave0 = "" then onlyDigits (extractChave inf.ID) else chave0
  let emissao := if inf.Ide.DhEmi = "" then inf.Ide.DEmi else inf.Ide.DhEmi
  let destPair : String × String :=
    match inf.Dest with
    | some d =>
      (onlyDigits (if d.CNPJ = "" then d.CPF else d.CNPJ), trimSpace d.XNome)
    | none => ("", "")
  let protTriple : String × String × Int :=
    match prot with
    | some pr =>
      (trimSpace pr.InfProt.NProt, normalizeDateYMD tp pr.InfProt.DhRecb,
        parseIntGo pr.InfProt.CStat)
    | none => ("", "", 0)
  { ChaveAcesso := chave
    HashIntegridade := hashHex
    Modelo := inf.Ide.Modelo
    Serie := inf.Ide.Serie
    Numero := inf.Ide.NNF
    EmissaoDate := normalizeDateYMD tp emissao
    TipoOperacao := inf.Ide.TpNF
    TipoAmbiente := inf.Ide.TpAmb
    NaturezaOperacao := trimSpace inf.Ide.NatOp
    EmitenteCNPJ := onlyDigits inf.Emit.CNPJ
    EmitenteRazao := trimSpace inf.Emit.XNome
    DestCNPJCPF := destPair.1
    DestRazao := destPair.2
    ValorTotalNota := parseFloatGo inf.Total.ICMSTot.VNF
    ValorProdutos := parseFloatGo inf.Total.ICMSTot.VProd
    ValorDesconto := parseFloatGo inf.Total.ICMSTot.VDesc
    ValorICMS := parseFloatGo inf.Total.ICMSTot.VICMS
    ValorIPI := parseFloatGo inf.Total.ICMSTot.VIPI
    ValorPIS := parseFloatGo inf.Total.ICMSTot.VPIS
    ValorCOFINS := parseFloatGo inf.Total.ICMSTot.VCOFINS
    ValorII := parseFloatGo inf.Total.ICMSTot.VII
    ValorFrete := parseFloatGo inf.Total.ICMSTot.VFrete
    ValorSeguro := parseFloatGo inf.Total.ICMSTot.VSeg
    ModalidadeFrete :=
      match inf.Transp with
      | some t => parseIntGo t.ModFrete
      | none => 0
    ProtocoloAut := protTriple.1
    DataAutorizacao := protTriple.2.1
    CodigoStatus := protTriple.2.2
    XMLRaw := xmlRaw
    Itens := inf.Det.map buildItemFromDet
    Duplicatas :=
      match inf.Cobr with
      | some cb => cb.Duplicatas.map fun du =>
          { Numero := trimSpace du.Numero
            DataVencimento := normalizeYMDDate du.DVenc
            Valor := parseFloatGo du.Valor }
      | none => []
    Pagamentos :=
      match inf.Pag with
      | some pg => pg.Det.map fun dp =>
          { IndicadorPagamento :=
              if trimSpace dp.IndPag ≠ "" then some (parseIntGo dp.IndPag) else none
            MeioPagamento := trimSpace dp.Meio
            Valor := parseFloatGo dp.Valor
            CNPJCredenciadora :=
              match dp.Card with
              | some cd => onlyDigits cd.CNPJ
              | none => ""
            BandeiraCartao :=
              match dp.Card with
              | some cd => trimSpace cd.Bandeira
              | none => ""
            CodigoAutorizacao :=
              match dp.Card with
              | some cd => trimSpace cd.Aut
              | none => "" }
      | none => [] }

/-! ## ParseFile -/

/-- External collaborators of ParseFile: the filesystem read, the sha256
hex digest, the env-var driven XSD configuration, the XSD validator
outcome, the path helpers, the two xml.Unmarshal decoders and the
time.Parse layouts.  All are deterministic functions, mirroring the
deterministic libraries the source calls. -/
structure ParseEnv where
  readFile : String → Except String Bytes
  sha256hex : Bytes → String
  xsdEnabledVar : String
  xsdDirVar : String
  xsdMainVar : String
  xsdValidate : Bytes → String → Option String
  isAbs : String → Bool
  joinPath : String → String → String
  decodeProc : Bytes → Option nfeProc
  decodeNfe : Bytes → Option nfeDoc
  timeParse : String → Option String

/-- Truthiness test of NFE_XSD_ENABLED. -/
def xsdEnabled (env : ParseEnv) : Bool :=
  let v := toLowerStr env.xsdEnabledVar
  v = "true" || v = "1" || v = "yes"

/-- The XSD stage of ParseFile: configuration guards, path resolution and
validation; none means the stage passed (or was disabled). -/
def xsdStage (env : ParseEnv) (data : Bytes) : Option String :=
  if xsdEnabled env then
    if env.xsdDirVar = "" then
      some "NFE_XSD_ENABLED=true mas NFE_XSD_DIR nao foi definido"
    else if env.xsdMainVar = "" then
      some "NFE_XSD_ENABLED=true mas NFE_XSD_MAIN nao foi definido"
    else
      let xsdPath :=
        if env.isAbs env.xsdMainVar then env.xsdMainVar
        else env.joinPath env.xsdDirVar env.xsdMainVar
      env.xsdValidate data xsdPath
  else none

/-- The second unmarshal attempt of ParseFile: the bare NFe variant with
the same non-zero model acceptance test, else the unrecognized-format
error. -/
def tryBareNFe (env : ParseEnv) (path : String) (data : Bytes)
    (hashHex : String) : Except String ParsedNFe :=
  match env.decodeNfe data with
  | some n =>
    if n.InfNFe.Ide.Modelo ≠ 0 then
      .ok (buildParsedFrom env.timeParse (.bare n) data hashHex)
    else .error ("XML nao reconhecido como nfeProc ou NFe (arquivo: " ++ path ++ ")")
  | none => .error ("XML nao reconhecido como nfeProc ou NFe (arquivo: " ++ path ++ ")")

/-- ParseFile: read, hash, optional XSD validation, then the ordered
nfeProc / NFe unmarshal attempts. -/
def parseFile (env : ParseEnv) (path : String) : Except String ParsedNFe :=
  match env.readFile path with
  | .error e => .error ("erro lendo XML " ++ path ++ ": " ++ e)
  | .ok data =>
    let hashHex := env.sha256hex data
    match xsdStage env data with
    | some e => .error e
    | none =>
      match env.decodeProc data with
      | some proc =>
        if proc.NFe.InfNFe.Ide.Modelo ≠ 0 then
          .ok (buildParsedFrom env.timeParse (.proc proc) data hashHex)
        else tryBareNFe env path data hashHex
      | none => tryBareNFe env path data hashHex

/-! ## Persister (SaveNFeWithRelations)

The SQL driver is an external collaborator: the outcome of each statement
execution is supplied by a DbEnv oracle.  A failed statement is either a
unique-constraint violation (pg error code 23505, the only code
isUniqueViolation recognises) or any other error carrying a message.
The store itself models transactional semantics: rows buffered inside
the transaction reach the store only on a successful commit, and every
other exit leaves the store exactly as it was (rollback). -/

/-- A non-nil SQL error, classified the way isUniqueViolation does. -/
inductive SqlFail
  | uniqueViolation
  | other (m : String)
deriving Repr, DecidableEq

/-- isUniqueViolation: a pg error with code 23505. -/
def isUniqueViolation (e : SqlFail) : Bool :=
  match e with
  | .uniqueViolation => true
  | .other _ => false

/-- Outcomes of the SQL statements in one SaveNFeWithRelations call. -/
structure DbEnv where
  beginErr : Option String
  nfeIns : Except SqlFail Int
  xmlIns : Option SqlFail
  itemIns : Nat → Option SqlFail
  dupIns : Nat → Option SqlFail
  pagIns : Nat → Option SqlFail
  commitErr : Option String

/-- Committed rows: one entry per committed transaction, holding the
generated invoice id and the full parsed content that populates the five
tables. -/
abbrev Store := List (Int × ParsedNFe)

/-- Error surface of insertNFe: the distinguished ErrNFeAlreadyExists or
an ordinary error message. -/
inductive SaveErr
  | alreadyExists
  | dbError (m : String)
deriving Repr, DecidableEq

/-- insertNFe: the empty-emissao guard, then the INSERT INTO nfe with
unique-violation detection. -/
def insertNFe (env : DbEnv) (p : ParsedNFe) : Except SaveErr Int :=
  if trimSpace p.EmissaoDate = "" then
    .error (.dbError ("emissao vazia para chave " ++ p.ChaveAcesso))
  else
    match env.nfeIns with
    | .error e =>
      if isUniqueViolation e then .error .alreadyExists
      else .error (.dbError ("erro inserindo nfe (chave=" ++ p.ChaveAcesso ++ ")"))
    | .ok id => .ok id

/-- insertNFeXML: the single INSERT INTO nfe_xml. -/
def insertNFeXML (env : DbEnv) (nfeID : Int) : Option String :=
  match env.xmlIns with
  | some _ => some ("erro inserindo nfe_xml (nfe_id=" ++ toString nfeID ++ ")")
  | none => none

/-- Per-row insert loop shared by the three child tables: the first
failing row aborts with its message. -/
def insertRows (outcome : Nat → Option SqlFail) (msg : Nat → String) :
    Nat → Nat → Option String
  | _, 0 => none
  | i, n + 1 =>
    match outcome i with
    | some _ => some (msg i)
    | none => insertRows outcome msg (i + 1) n

/-- insertItens over the parsed items. -/
def insertItens (env : DbEnv) (nfeID : Int) (itens : List ParsedItem) : Option String :=
  insertRows env.itemIns
    (fun i => "erro inserindo item idx=" ++ toString i ++ " da nfe_id=" ++ toString nfeID)
    0 itens.length

/-- insertDuplicatas over the parsed receivables. -/
def insertDuplicatas (env : DbEnv) (nfeID : Int) (dups : List ParsedDuplicata) : Option String :=
  insertRows env.dupIns
    (fun i => "erro inserindo duplicata idx=" ++ toString i ++ " nfe_id=" ++ toString nfeID)
    0 dups.length

/-- insertPagamentos over the parsed payments. -/
def insertPagamentos (env : DbEnv) (nfeID : Int) (pags : List ParsedPagamento) : Option String :=
  insertRows env.pagIns
    (fun i => "erro inserindo pagamento idx=" ++ toString i ++ " nfe_id=" ++ toString nfeID)
    0 pags.length

/-- Result surface of SaveNFeWithRelations as the worker observes it:
the id on success, the distinguished duplicate outcome, or an error. -/
inductive SaveRes
  | ok (id : Int)
  | duplicate
  | error (m : String)
deriving Repr, DecidableEq

/-- SaveNFeWithRelations: begin, the five insert steps, commit; the
deferred rollback leaves the store untouched on every non-commit exit. -/
def SaveNFeWithRelations (env : DbEnv) (p : ParsedNFe) (store : Store) :
    Store × SaveRes :=
  match env.beginErr with
  | some m => (store, .error ("erro iniciando transacao: " ++ m))
  | none =>
    match insertNFe env p with
    | .error .alreadyExists => (store, .duplicate)
    | .error (.dbError m) => (store, .error m)
    | .ok id =>
      match insertNFeXML env id with
      | some m => (store, .error m)
      | none =>
        match insertItens env id p.Itens with
        | some m => (store, .error m)
        | none =>
          match insertDuplicatas env id p.Duplicatas with
          | some m => (store, .error m)
          | none =>
            match insertPagamentos env id p.Pagamentos with
            | some m => (store, .error m)
            | none =>
              match env.commitErr with
              | some m => (store, .error ("erro no commit da transacao: " ++ m))
              | none => (store ++ [(id, p)], .ok id)

/-! ## Watcher (stability check and incoming-file handling) -/

/-- Stability parameters set in watcher.New. -/
def stableAttemptsDef : Nat := 5

/-- Delay in milliseconds between size samples, set in watcher.New. -/
def stableDelayMsDef : Nat := 200

/-- Size samples of one stability check: the os.Stat outcome at the i-th
attempt; none covers both a vanished file and any other stat error, the
two cases the loop treats identically (return false). -/
abbrev SizeSamples := Nat → Option Int

/-- The loop body of waitFileStable: i counts attempts taken, fuel is the
remaining attempt budget, last is the previous sample (initially -1). -/
def waitLoop (stat : SizeSamples) : Nat → Nat → Int → Bool
  | _, 0, _ => false
  | i, fuel + 1, last =>
    match stat i with
    | none => false
    | some size =>
      if size > 0 && size = last then true
      else waitLoop stat (i + 1) fuel size

/-- waitFileStable: up to attempts samples, stable when a sample is
positive and equal to the previous one. -/
def waitFileStable (stat : SizeSamples) (attempts : Nat) : Bool :=
  waitLoop stat 0 attempts (-1)

/-- What handleIncomingFile decides for one arrival.  promote carries the
job kind and stands for the rename into processing followed by the
(broker-enabled) job publication; every other constructor performs
neither the rename nor a publish. -/
inductive WatchAct
  | removeZoneId
  | dropUnstable
  | promote (kind : String)
  | moveIgnored
deriving Repr, DecidableEq

/-- handleIncomingFile: zone-identifier unlink, extension dispatch with
the stability gate, ignored fallback. -/
def handleIncomingFile (stat : SizeSamples) (attempts : Nat)
    (filename : String) : WatchAct :=
  if isZoneIdentifier filename then .removeZoneId
  else
    let ext := toLowerStr (extOf filename)
    if ext = ".xml" || ext = ".zip" then
      if waitFileStable stat attempts then .promote (dropDotPre ext)
      else .dropUnstable
    else .moveIgnored

/-! ## Job broker client (consume step and retry header) -/

/-- A job envelope. -/
structure Job where
  Path : String := ""
  Filename : String := ""
  Kind : String := ""
deriving Repr, DecidableEq

/-- A value stored in an AMQP header table, restricted to the types the
amqp091 field decoder can produce that matter here.  The float
constructors carry the exact rational value of the float; the only
operation applied to them, the Go int(t) conversion, is truncation toward
zero. -/
inductive AmqpVal
  | vbool (b : Bool)
  | vi8 (n : Int)
  | vi16 (n : Int)
  | vi32 (n : Int)
  | vi64 (n : Int)
  | vf32 (q : Rat)
  | vf64 (q : Rat)
  | vstr (s : String)
deriving Repr, DecidableEq

/-- Truncation toward zero, the meaning of the Go int(t) conversion on a
float that is in range. -/
def ratTrunc (q : Rat) : Int :=
  if 0 ≤ q then q.floor else q.ceil

/-- An AMQP header table (a map with unique keys, embedded as a
first-match association list). -/
abbrev Headers := List (String × AmqpVal)

/-- Map lookup on a header table. -/
def tblGet (t : Headers) (k : String) : Option AmqpVal :=
  match t with
  | [] => none
  | (k2, v) :: rest => if k2 = k then some v else tblGet rest k

/-- Map update on a header table. -/
def tblSet (t : Headers) (k : String) (v : AmqpVal) : Headers :=
  match t with
  | [] => [(k, v)]
  | (k2, v2) :: rest =>
    if k2 = k then (k2, v) :: rest else (k2, v2) :: tblSet rest k v

/-- extractRetries: missing table or key is 0; int32, int64, float32 and
float64 values convert with int(t); every other type falls to the
default branch, 0. -/
def extractRetries (h : Option Headers) : Int :=
  match h with
  | none => 0
  | some t =>
    match tblGet t "x-retries" with
    | none => 0
    | some v =>
      match v with
      | .vi32 n => n
      | .vi64 n => n
      | .vf32 q => ratTrunc q
      | .vf64 q => ratTrunc q
      | _ => 0

/-- Modelled from the spec: a second reading of the retry header following
the spec sentence, which promises that any numeric representation of the
value is accepted.  Used only to compare against extractRetries. -/
def specExtractRetries (h : Option Headers) : Int :=
  match h with
  | none => 0
  | some t =>
    match tblGet t "x-retries" with
    | none => 0
    | some v =>
      match v with
      | .vi8 n => n
      | .vi16 n => n
      | .vi32 n => n
      | .vi64 n => n
      | .vf32 q => ratTrunc q
      | .vf64 q => ratTrunc q
      | _ => 0

/-- The maxRetries configuration of NewRabbitMQ: default 3, overridden by
the env var when it parses as a positive integer. -/
def maxRetriesCfg (envVal : String) : Int :=
  if envVal = "" then 3
  else
    match atoiGo envVal with
    | some n => if n > 0 then n else 3
    | none => 3

/-- Wrap of the Go int32 conversion applied when the retry header is
rewritten. -/
def wrap32 (x : Int) : Int :=
  (x + 2 ^ 31) % 2 ^ 32 - 2 ^ 31

/-- One delivery as the consumer loop sees it. -/
structure Delivery where
  body : String := ""
  headers : Option Headers := none
deriving Repr, DecidableEq

/-- The broker-visible outcome of one delivery in ConsumeJobs. -/
inductive ConsumeAct
  | ackMalformed
  | ackOk
  | republishAck (body : String) (headers : Headers)
  | nackDLQ
deriving Repr, DecidableEq

/-- One iteration of the ConsumeJobs delivery loop.  The JSON unmarshal
of the body is the external decoder outcome decoded; handler reports
none on success.  On handler error the retry header decides between a
republish of the original body with the incremented header followed by
an ack, and a nack without requeue (which the queue arguments route to
the DLQ).  The republish itself can fail, but the source only logs that
and still acks, so the action is the same. -/
def consumeStep (decoded : Option Job) (handler : Job → Option String)
    (maxRetries : Int) (msg : Delivery) : ConsumeAct :=
  match decoded with
  | none => .ackMalformed
  | some job =>
    match handler job with
    | none => .ackOk
    | some _ =>
      let retries := extractRetries msg.headers
      if retries < maxRetries then
        let h0 := match msg.headers with | none => ([] : Headers) | some t => t
        .republishAck msg.body (tblSet h0 "x-retries" (.vi32 (wrap32 (retries + 1))))
      else .nackDLQ

/-! ## Worker (polling fallback dispatch) -/

/-- Stat outcome for one path. -/
structure StatInfo where
  isDir : Bool := false
deriving Repr, DecidableEq

/-- What handleProcessingFile decides for one entry of processing/.
runXML and runZIP stand for the full processXML / processZIP pipelines
(the only places where ParseFile, SaveNFeWithRelations and ObserveNFe
are invoked); moveProcessed is the bare rename into processed/. -/
inductive ProcAct
  | skipStatErr
  | skipDir
  | runXML (path filename : String)
  | runZIP (path filename : String)
  | moveProcessed (path filename : String)
deriving Repr, DecidableEq

/-- handleProcessingFile: stat guard, directory guard, lowercased
extension dispatch with the move-to-processed fallback. -/
def handleProcessingFile (stat : String → Option StatInfo) (srcPath : String) : ProcAct :=
  match stat srcPath with
  | none => .skipStatErr
  | some info =>
    if info.isDir then .skipDir
    else
      let filename := baseOf srcPath
      let ext := toLowerStr (extOf filename)
      if ext = ".xml" then .runXML srcPath filename
      else if ext = ".zip" then .runZIP srcPath filename
      else .moveProcessed srcPath filename

/-- True exactly for the actions whose pipeline invokes ParseFile (the
bodies of processXML and processZIP). -/
def actParses (a : ProcAct) : Bool :=
  match a with
  | .runXML _ _ => true
  | .runZIP _ _ => true
  | _ => false

/-- True exactly for the actions whose pipeline invokes
SaveNFeWithRelations. -/
def actWritesDb (a : ProcAct) : Bool :=
  match a with
  | .runXML _ _ => true
  | .runZIP _ _ => true
  | _ => false

/-- True exactly for the actions whose pipeline invokes
metrics.ObserveNFe. -/
def actEmitsMetric (a : ProcAct) : Bool :=
  match a with
  | .runXML _ _ => true
  | .runZIP _ _ => true
  | _ => false

/-- Terminal directories of the worker moves. -/
inductive TermDir
  | processed
  | failed
  | ignored
deriving Repr, DecidableEq

/-- The terminal directory an action renames the file into immediately,
when it is a direct move (the pipelines decide their terminal directory
later, per outcome). -/
def actDest (a : ProcAct) : Option TermDir :=
  match a with
  | .moveProcessed _ _ => some .processed
  | _ => none

/-! ## Spec-side comparison extractor -/

/-- Modelled from the spec: the extractor that checks the variants in the
priority order of the specification table, row by row (ICMS00, ICMS20,
ICMS51; ICMS10, ICMS70, ICMS90, ICMSPart, ICMSSN900; ICMS30, ICMSSN201,
ICMSSN202, ICMSSN500; ICMS40, ICMSSN101, ICMSSN102), filling the four
dimensions as each row defines.  Used only to compare against
extractICMS. -/
def specOrderICMS (g : icmsGroup) : Rat × Rat × Rat × Rat :=
  match g.ICMS00 with
  | some v => (parseFloatGo v.VBC, parseFloatGo v.VICMS, 0, 0)
  | none =>
  match g.ICMS20 with
  | some v => (parseFloatGo v.VBC, parseFloatGo v.VICMS, 0, 0)
  | none =>
  match g.ICMS51 with
  | some v => (parseFloatGo v.VBC, parseFloatGo v.VICMS, 0, 0)
  | none =>
  match g.ICMS10 with
  | some v => (parseFloatGo v.VBC, parseFloatGo v.VICMS, parseFloatGo v.VBCST, parseFloatGo v.VICMSST)
  | none =>
  match g.ICMS70 with
  | some v => (parseFloatGo v.VBC, parseFloatGo v.VICMS, parseFloatGo v.VBCST, parseFloatGo v.VICMSST)
  | none =>
  match g.ICMS90 with
  | some v => (parseFloatGo v.VBC, parseFloatGo v.VICMS, parseFloatGo v.VBCST, parseFloatGo v.VICMSST)
  | none =>
  match g.ICMSPart with
  | some v => (parseFloatGo v.VBC, parseFloatGo v.VICMS, parseFloatGo v.VBCST, parseFloatGo v.VICMSST)
  | none =>
  match g.ICMSSN900 with
  | some v => (parseFloatGo v.VBC, parseFloatGo v.VICMS, parseFloatGo v.VBCST, parseFloatGo v.VICMSST)
  | none =>
  match g.ICMS30 with
  | some v => (0, 0, parseFloatGo v.VBCST, parseFloatGo v.VICMSST)
  | none =>
  match g.ICMSSN201 with
  | some v => (0, 0, parseFloatGo v.VBCST, parseFloatGo v.VICMSST)
  | none =>
  match g.ICMSSN202 with
  | some v => (0, 0, parseFloatGo v.VBCST, parseFloatGo v.VICMSST)
  | none =>
  match g.ICMSSN500 with
  | some v => (0, 0, parseFloatGo v.VBCST, parseFloatGo v.VICMSST)
  | none => (0, 0, 0, 0)

/-! ## Concrete instances used by the claim theorems and witnesses -/

/-- Statement outcomes with a unique violation on the initial insert. -/
def envC1dup : DbEnv :=
  { beginErr := none
    nfeIns := Except.error SqlFail.uniqueViolation
    xmlIns := none
    itemIns := fun _ => none
    dupIns := fun _ => none
    pagIns := fun _ => none
    commitErr := none }

/-- A parsed invoice with a filled issue date. -/
def pC1 : ParsedNFe := { EmissaoDate := "2024-01-01" }

/-- A decoded protocol envelope whose issue-date fields are both empty. -/
def procC2 : nfeProc := { NFe := { InfNFe := { Ide := { Modelo := 55 } } } }

/-- Parse environment decoding every input to procC2. -/
def envC2 : ParseEnv :=
  { readFile := fun _ => Except.ok [1]
    sha256hex := fun _ => "h"
    xsdEnabledVar := ""
    xsdDirVar := ""
    xsdMainVar := ""
    xsdValidate := fun _ _ => none
    isAbs := fun _ => false
    joinPath := fun a b => a ++ "/" ++ b
    decodeProc := fun _ => some procC2
    decodeNfe := fun _ => none
    timeParse := fun _ => none }

/-- Statement outcomes with every SQL step succeeding. -/
def denvC2 : DbEnv :=
  { beginErr := none
    nfeIns := Except.ok 7
    xmlIns := none
    itemIns := fun _ => none
    dupIns := fun _ => none
    pagIns := fun _ => none
    commitErr := none }

/-- A decoded envelope whose chNFe is non-empty but digit-free and whose
infNFe identifier carries a short key. -/
def procC3 : nfeProc :=
  { NFe := { InfNFe := { ID := "NFe123", Ide := { Modelo := 55 } } }
    ProtNFe := some { InfProt := { ChNFe := "XYZ" } } }

/-- Parse environment decoding every input to procC3. -/
def envC3 : ParseEnv :=
  { readFile := fun _ => Except.ok [1]
    sha256hex := fun _ => "h"
    xsdEnabledVar := ""
    xsdDirVar := ""
    xsdMainVar := ""
    xsdValidate := fun _ _ => none
    isAbs := fun _ => false
    joinPath := fun a b => a ++ "/" ++ b
    decodeProc := fun _ => some procC3
    decodeNfe := fun _ => none
    timeParse := fun _ => none }

/-- A job envelope for the consume-step instances. -/
def jobC4 : Job := { Path := "processing/a.xml", Filename := "a.xml", Kind := "xml" }

/-- A header table whose retry count arrives as an AMQP short int. -/
def hdrsC4 : Headers := [("x-retries", AmqpVal.vi16 3)]

/-- Parse environment decoding every input to a protocol envelope with a
non-zero model. -/
def envC6 : ParseEnv :=
  { readFile := fun _ => Except.ok [1]
    sha256hex := fun _ => "h"
    xsdEnabledVar := ""
    xsdDirVar := ""
    xsdMainVar := ""
    xsdValidate := fun _ _ => none
    isAbs := fun _ => false
    joinPath := fun a b => a ++ "/" ++ b
    decodeProc := fun _ => some { NFe := { InfNFe := { Ide := { Modelo := 55 } } } }
    decodeNfe := fun _ => none
    timeParse := fun _ => none }

/-- A group holding both an ICMS30 and an ICMS70 sub-element. -/
def gC7 : icmsGroup :=
  { ICMS30 := some { VBCST := "5", VICMSST := "6" }
    ICMS70 := some { VBC := "1", VICMS := "2", VBCST := "3", VICMSST := "4" } }

/-- A decoded envelope whose header total carries a negative number. -/
def procC8 : nfeProc :=
  { NFe := { InfNFe := { Ide := { Modelo := 55 }, Total := { ICMSTot := { VNF := "-1" } } } } }

/-- Parse environment decoding every input to procC8. -/
def envC8 : ParseEnv :=
  { readFile := fun _ => Except.ok [1]
    sha256hex := fun _ => "h"
    xsdEnabledVar := ""
    xsdDirVar := ""
    xsdMainVar := ""
    xsdValidate := fun _ _ => none
    isAbs := fun _ => false
    joinPath := fun a b => a ++ "/" ++ b
    decodeProc := fun _ => some procC8
    decodeNfe := fun _ => none
    timeParse := fun _ => none }

/-- Parse environment decoding every input to a bare NFe document. -/
def envC9 : ParseEnv :=
  { readFile := fun _ => Except.ok [2]
    sha256hex := fun _ => "h2"
    xsdEnabledVar := ""
    xsdDirVar := ""
    xsdMainVar := ""
    xsdValidate := fun _ _ => none
    isAbs := fun _ => false
    joinPath := fun a b => a ++ "/" ++ b
    decodeProc := fun _ => none
    decodeNfe := fun _ => some { InfNFe := { Ide := { Modelo := 65 } } }
    timeParse := fun _ => none }

/-! ## Helper lemmas -/

/-- Completeness of the stability loop: a consecutive positive pair within
the budget makes the loop return true. -/
theorem waitLoop_of_pair (stat : SizeSamples) :
    ∀ (k fuel i : Nat) (last s : Int),
      k + 1 < fuel →
      (∀ j : Nat, j ≤ k + 1 → (stat (i + j)).isSome) →
      stat (i + k) = some s → stat (i + k + 1) = some s → 0 < s →
      waitLoop stat i fuel last = true := by
  intro k
  induction k with
  | zero =>
    intro fuel i last s hf hall h1 h2 hs
    obtain ⟨f1, rfl⟩ : ∃ f1, fuel = f1 + 1 := ⟨fuel - 1, by omega⟩
    obtain ⟨f2, rfl⟩ : ∃ f2, f1 = f2 + 1 := ⟨f1 - 1, by omega⟩
    rw [Nat.add_zero] at h1
    have h2b : stat (i + 1) = some s := by
      rwa [show i + 0 + 1 = i + 1 by omega] at h2
    by_cases hc : (decide (s > 0) && decide (s = last)) = true
    · simp [waitLoop, h1, hc]
    · rw [Bool.not_eq_true] at hc
      simp [waitLoop, h1, h2b, hc, hs]
  | succ k2 ih =>
    intro fuel i last s hf hall h1 h2 hs
    obtain ⟨f1, rfl⟩ : ∃ f1, fuel = f1 + 1 := ⟨fuel - 1, by omega⟩
    have h0 : (stat i).isSome := by simpa using hall 0 (by omega)
    obtain ⟨size, hsize⟩ := Option.isSome_iff_exists.mp h0
    have hrec : waitLoop stat (i + 1) f1 size = true := by
      refine ih f1 (i + 1) size s (by omega) ?_ ?_ ?_ hs
      · intro j hj
        have := hall (j + 1) (by omega)
        rwa [show i + (j + 1) = i + 1 + j by omega] at this
      · rwa [show i + 1 + k2 = i + (k2 + 1) by omega]
      · rwa [show i + 1 + k2 + 1 = i + (k2 + 1) + 1 by omega]
    by_cases hc : (decide (size > 0) && decide (size = last)) = true
    · simp [waitLoop, hsize, hc]
    · rw [Bool.not_eq_true] at hc
      simp [waitLoop, hsize, hc, hrec]

/-- Soundness of the stability loop: a true return exhibits either a first
sample matching the incoming last value or a consecutive positive pair
within the budget. -/
theorem pair_of_waitLoop (stat : SizeSamples) :
    ∀ (fuel i : Nat) (last : Int),
      waitLoop stat i fuel last = true →
      (∃ s : Int, stat i = some s ∧ 0 < s ∧ s = last) ∨
      (∃ k : Nat, k + 1 < fuel ∧ (∀ j : Nat, j ≤ k + 1 → (stat (i + j)).isSome) ∧
        ∃ s : Int, stat (i + k) = some s ∧ stat (i + k + 1) = some s ∧ 0 < s) := by
  intro fuel
  induction fuel with
  | zero =>
    intro i last h
    simp [waitLoop] at h
  | succ fuel ih =>
    intro i last h
    rw [waitLoop] at h
    cases hsize : stat i with
    | none =>
      rw [hsize] at h
      simp at h
    | some size =>
      rw [hsize] at h
      have hred : (if (decide (size > 0) && decide (size = last)) = true then true
          else waitLoop stat (i + 1) fuel size) = true := h
      by_cases hc : (decide (size > 0) && decide (size = last)) = true
      · left
        have hc2 : 0 < size ∧ size = last := by simpa using hc
        exact ⟨size, rfl, hc2.1, hc2.2⟩
      · rw [Bool.not_eq_true] at hc
        rw [hc] at hred
        simp only [Bool.false_eq_true, if_false] at hred
        replace h := hred
        have hf : 1 ≤ fuel := by
          cases fuel with
          | zero => simp [waitLoop] at h
          | succ f => omega
        rcases ih (i + 1) size h with ⟨s, h1, hs, hseq⟩ | ⟨k, hk, hall, s, h1, h2, hs⟩
        · right
          refine ⟨0, by omega, ?_, s, ?_, ?_, hs⟩
          · intro j hj
            interval_cases j
            · simpa [Nat.add_zero] using congrArg Option.isSome hsize
            · simpa using congrArg Option.isSome h1
          · rw [Nat.add_zero, hsize, hseq]
          · rwa [show i + 0 + 1 = i + 1 by omega]
        · right
          refine ⟨k + 1, by omega, ?_, s, ?_, ?_, hs⟩
          · intro j hj
            cases j with
            | zero => simpa [Nat.add_zero] using congrArg Option.isSome hsize
            | succ j2 =>
              have := hall j2 (by omega)
              rwa [show i + 1 + j2 = i + (j2 + 1) by omega] at this
          · rwa [show i + 1 + k = i + (k + 1) by omega] at h1
          · rwa [show i + 1 + k + 1 = i + (k + 1) + 1 by omega] at h2

/-- A parsed record with an empty (trimmed) issue date makes the persister
abort before any insert, leaving the store unchanged. -/
theorem save_error_of_empty_emissao (denv : DbEnv) (p : ParsedNFe) (store : Store)
    (h : trimSpace p.EmissaoDate = "") :
    (SaveNFeWithRelations denv p store).1 = store ∧
    ∃ m : String, (SaveNFeWithRelations denv p store).2 = SaveRes.error m := by
  cases hb : denv.beginErr with
  | some m => simp [SaveNFeWithRelations, hb]
  | none => simp [SaveNFeWithRelations, insertNFe, hb, h]

/-- Every character of an onlyDigits image is a decimal digit. -/
theorem onlyDigits_all_digits (s : String) :
    (onlyDigits s).data.all Char.isDigit = true := by
  unfold onlyDigits
  rw [List.all_eq_true]
  intro c hc
  have hmem := List.mem_filter.mp hc
  have hd := hmem.2
  simp only [Bool.and_eq_true, decide_eq_true_eq] at hd
  simp [Char.isDigit]
  exact ⟨hd.1, hd.2⟩

/-- The access key of a built record is always an onlyDigits image. -/
theorem chave_is_onlyDigits (tp : String → Option String) (v : buildSrc)
    (raw : Bytes) (hh : String) :
    ∃ s : String, (buildParsedFrom tp v raw hh).ChaveAcesso = onlyDigits s := by
  cases v with
  | proc t =>
    cases hpr : t.ProtNFe with
    | none =>
      refine ⟨extractChave t.NFe.InfNFe.ID, ?_⟩
      simp [buildParsedFrom, buildSrcParts, hpr]
    | some pr =>
      by_cases hch : pr.InfProt.ChNFe = ""
      · refine ⟨extractChave t.NFe.InfNFe.ID, ?_⟩
        simp [buildParsedFrom, buildSrcParts, hpr, hch]
      · by_cases hc0 : onlyDigits pr.InfProt.ChNFe = ""
        · refine ⟨extractChave t.NFe.InfNFe.ID, ?_⟩
          simp [buildParsedFrom, buildSrcParts, hpr, hch, hc0]
        · refine ⟨pr.InfProt.ChNFe, ?_⟩
          simp [buildParsedFrom, buildSrcParts, hpr, hch, hc0]
  | bare n =>
    refine ⟨extractChave n.InfNFe.ID, ?_⟩
    simp [buildParsedFrom, buildSrcParts]

/-- Every ok result of parseFile is a buildParsedFrom image of the bytes
that were read. -/
theorem parseFile_ok_shape (env : ParseEnv) (path : String) (p : ParsedNFe)
    (h : parseFile env path = Except.ok p) :
    ∃ v : buildSrc, ∃ data : Bytes,
      p = buildParsedFrom env.timeParse v data (env.sha256hex data) := by
  unfold parseFile at h
  cases hr : env.readFile path with
  | error e => rw [hr] at h; simp at h
  | ok data =>
    rw [hr] at h
    simp only at h
    cases hx : xsdStage env data with
    | some e => rw [hx] at h; simp at h
    | none =>
      rw [hx] at h
      cases hdp : env.decodeProc data with
      | some proc =>
        rw [hdp] at h
        by_cases hm : proc.NFe.InfNFe.Ide.Modelo = 0
        · simp only [hm, ne_eq, not_true_eq_false, if_false] at h
          unfold tryBareNFe at h
          cases hdn : env.decodeNfe data with
          | none => rw [hdn] at h; simp at h
          | some n =>
            rw [hdn] at h
            by_cases hm2 : n.InfNFe.Ide.Modelo = 0
            · simp [hm2] at h
            · simp only [hm2, ne_eq, not_false_eq_true, if_true, Except.ok.injEq] at h
              exact ⟨buildSrc.bare n, data, h.symm⟩
        · simp only [hm, ne_eq, not_false_eq_true, if_true, Except.ok.injEq] at h
          exact ⟨buildSrc.proc proc, data, h.symm⟩
      | none =>
        rw [hdp] at h
        unfold tryBareNFe at h
        cases hdn : env.decodeNfe data with
        | none => rw [hdn] at h; simp at h
        | some n =>
          rw [hdn] at h
          by_cases hm2 : n.InfNFe.Ide.Modelo = 0
          · simp [hm2] at h
          · simp only [hm2, ne_eq, not_false_eq_true, if_true, Except.ok.injEq] at h
            exact ⟨buildSrc.bare n, data, h.symm⟩

/-- The comma-to-dot substitution does not create or destroy whitespace. -/
theorem goSpace_swap (c : Char) : goSpace (if c = ',' then '.' else c) = goSpace c := by
  by_cases hc : c = ','
  · subst hc; decide
  · simp [hc]

/-- Trimming commutes with the comma-to-dot substitution. -/
theorem commaToDot_trimSpace (s : String) :
    trimSpace (commaToDot s) = commaToDot (trimSpace s) := by
  have hcomp : (goSpace ∘ fun c => if c = ',' then '.' else c) = goSpace := by
    funext c; exact goSpace_swap c
  apply String.ext
  show (((s.data.map fun c => if c = ',' then '.' else c).dropWhile goSpace).reverse.dropWhile
      goSpace).reverse =
    (((s.data.dropWhile goSpace).reverse.dropWhile goSpace).reverse.map
      fun c => if c = ',' then '.' else c)
  rw [List.dropWhile_map, hcomp, ← List.map_reverse, List.dropWhile_map, hcomp,
    ← List.map_reverse]

/-- The comma-to-dot substitution is idempotent. -/
theorem commaToDot_idem (s : String) : commaToDot (commaToDot s) = commaToDot s := by
  apply String.ext
  show ((s.data.map fun c => if c = ',' then '.' else c).map fun c => if c = ',' then '.' else c) =
    s.data.map fun c => if c = ',' then '.' else c
  rw [List.map_map]
  congr 1
  funext c
  by_cases hc : c = ','
  · subst hc; decide
  · simp [hc]

/-- The comma-to-dot substitution preserves emptiness. -/
theorem commaToDot_eq_empty_iff (s : String) : commaToDot s = "" ↔ s = "" := by
  constructor
  · intro h
    apply String.ext
    have h2 := congrArg String.data h
    simpa [commaToDot, List.map_eq_nil_iff] using h2
  · intro h; rw [h]; rfl

/-! ## Claim theorems -/

/-- C1: the save operation is a single transaction: the result is
duplicate exactly when the transaction opened, the record passed the
issue-date guard and the initial invoice insert hit a unique violation
(SQL state 23505); a duplicate or error exit leaves the store unchanged
(rollback); an error result is distinct from the duplicate result; a
success appends exactly the one committed row set and happens exactly
when every one of the five insert steps and the commit succeed; and,
input-conditionally, a failure at any of the five insert steps other
than the duplicate case (the issue-date guard, a non-unique-violation
invoice error, or a failing invoice_xml, item, receivable or payment
insert) aborts with the store unchanged and surfaces as an error
result. -/
theorem c1_save_transactional (env : DbEnv) (p : ParsedNFe) (store : Store) :
    ((SaveNFeWithRelations env p store).2 = SaveRes.duplicate ↔
      (env.beginErr = none ∧ trimSpace p.EmissaoDate ≠ "" ∧
        env.nfeIns = Except.error SqlFail.uniqueViolation)) ∧
    ((SaveNFeWithRelations env p store).2 = SaveRes.duplicate →
      (SaveNFeWithRelations env p store).1 = store) ∧
    (∀ m : String, (SaveNFeWithRelations env p store).2 = SaveRes.error m →
      (SaveNFeWithRelations env p store).1 = store) ∧
    (∀ m : String, SaveRes.error m ≠ SaveRes.duplicate) ∧
    (∀ id : Int, (SaveNFeWithRelations env p store).2 = SaveRes.ok id →
      (SaveNFeWithRelations env p store).1 = store ++ [(id, p)]) ∧
    (∀ id : Int, (SaveNFeWithRelations env p store).2 = SaveRes.ok id ↔
      (env.beginErr = none ∧ trimSpace p.EmissaoDate ≠ "" ∧ env.nfeIns = Except.ok id ∧
        env.xmlIns = none ∧ insertItens env id p.Itens = none ∧
        insertDuplicatas env id p.Duplicatas = none ∧
        insertPagamentos env id p.Pagamentos = none ∧ env.commitErr = none)) ∧
    (env.beginErr = none → trimSpace p.EmissaoDate = "" →
      ∃ m : String, SaveNFeWithRelations env p store = (store, SaveRes.error m)) ∧
    (∀ m0 : String, env.beginErr = none → trimSpace p.EmissaoDate ≠ "" →
      env.nfeIns = Except.error (SqlFail.other m0) →
      ∃ m : String, SaveNFeWithRelations env p store = (store, SaveRes.error m)) ∧
    (∀ id : Int, ∀ e : SqlFail, env.beginErr = none → trimSpace p.EmissaoDate ≠ "" →
      env.nfeIns = Except.ok id → env.xmlIns = some e →
      ∃ m : String, SaveNFeWithRelations env p store = (store, SaveRes.error m)) ∧
    (∀ id : Int, ∀ m1 : String, env.beginErr = none → trimSpace p.EmissaoDate ≠ "" →
      env.nfeIns = Except.ok id → env.xmlIns = none →
      insertItens env id p.Itens = some m1 →
      SaveNFeWithRelations env p store = (store, SaveRes.error m1)) ∧
    (∀ id : Int, ∀ m2 : String, env.beginErr = none → trimSpace p.EmissaoDate ≠ "" →
      env.nfeIns = Except.ok id → env.xmlIns = none →
      insertItens env id p.Itens = none →
      insertDuplicatas env id p.Duplicatas = some m2 →
      SaveNFeWithRelations env p store = (store, SaveRes.error m2)) ∧
    (∀ id : Int, ∀ m3 : String, env.beginErr = none → trimSpace p.EmissaoDate ≠ "" →
      env.nfeIns = Except.ok id → env.xmlIns = none →
      insertItens env id p.Itens = none →
      insertDuplicatas env id p.Duplicatas = none →
      insertPagamentos env id p.Pagamentos = some m3 →
      SaveNFeWithRelations env p store = (store, SaveRes.error m3)) ∧
    (∀ id : Int, ∀ mc : String, env.beginErr = none → trimSpace p.EmissaoDate ≠ "" →
      env.nfeIns = Except.ok id → env.xmlIns = none →
      insertItens env id p.Itens = none →
      insertDuplicatas env id p.Duplicatas = none →
      insertPagamentos env id p.Pagamentos = none →
      env.commitErr = some mc →
      ∃ m : String, SaveNFeWithRelations env p store = (store, SaveRes.error m)) := by
  unfold SaveNFeWithRelations insertNFe insertNFeXML
  cases henv : env.beginErr with
  | some m => simp [henv]
  | none =>
    by_cases he : trimSpace p.EmissaoDate = ""
    · simp [he, henv]
    · cases hins : env.nfeIns with
      | error e =>
        cases e with
        | uniqueViolation => simp [he, henv, hins, isUniqueViolation]
        | other m0 => simp [he, henv, hins, isUniqueViolation]
      | ok id =>
        cases hxml : env.xmlIns with
        | some e1 => simp [he, henv, hins, hxml]
        | none =>
          cases hit : insertItens env id p.Itens with
          | some m1 =>
            simp [he, henv, hins, hxml, hit]
            refine ⟨?_, ?_, ?_⟩
            · rintro id2 m1b rfl hit2
              rw [hit] at hit2
              exact Option.some.inj hit2
            · rintro id2 m2 rfl hitn
              rw [hit] at hitn
              simp at hitn
            · rintro id2 m3 rfl hitn
              rw [hit] at hitn
              simp at hitn
          | none =>
            cases hdu : insertDuplicatas env id p.Duplicatas with
            | some m2 =>
              simp [he, henv, hins, hxml, hit, hdu]
              refine ⟨?_, ?_, ?_⟩
              · rintro id2 m1 rfl hit2
                rw [hit] at hit2
                simp at hit2
              · rintro id2 m2b rfl _ hdu2
                rw [hdu] at hdu2
                exact Option.some.inj hdu2
              · rintro id2 m3 rfl _ hdun
                rw [hdu] at hdun
                simp at hdun
            | none =>
              cases hpa : insertPagamentos env id p.Pagamentos with
              | some m3 =>
                simp [he, henv, hins, hxml, hit, hdu, hpa]
                refine ⟨?_, ?_, ?_⟩
                · rintro id2 m1 rfl hit2
                  rw [hit] at hit2
                  simp at hit2
                · rintro id2 m2 rfl _ hdu2
                  rw [hdu] at hdu2
                  simp at hdu2
                · rintro id2 m3b rfl _ _ hpa2
                  rw [hpa] at hpa2
                  exact Option.some.inj hpa2
              | none =>
                cases hco : env.commitErr with
                | some m4 =>
                  simp [he, henv, hins, hxml, hit, hdu, hpa, hco]
                  refine ⟨?_, ?_, ?_⟩
                  · rintro id2 m1 rfl hit2
                    rw [hit] at hit2
                    simp at hit2
                  · rintro id2 m2 rfl _ hdu2
                    rw [hdu] at hdu2
                    simp at hdu2
                  · rintro id2 m3 rfl _ _ hpa2
                    rw [hpa] at hpa2
                    simp at hpa2
                | none =>
                  simp [he, henv, hins, hxml, hit, hdu, hpa, hco]
                  refine ⟨?_, ?_, ?_⟩
                  · rintro id2 m1 rfl hit2
                    rw [hit] at hit2
                    simp at hit2
                  · rintro id2 m2 rfl _ hdu2
                    rw [hdu] at hdu2
                    simp at hdu2
                  · rintro id2 m3 rfl _ _ hpa2
                    rw [hpa] at hpa2
                    simp at hpa2

/-- C1 witness: a unique violation on the initial insert yields the
duplicate result on a concrete environment. -/
theorem c1_witness : (SaveNFeWithRelations envC1dup pC1 []).2 = SaveRes.duplicate :=
  (c1_save_transactional envC1dup pC1 []).1.mpr ⟨rfl, by decide, rfl⟩

/-- C2 counterexample: a decoded document with a non-zero model and both
issue-date fields empty is accepted by parseFile with an empty
issue_date, not rejected with a parse error as the claim states. -/
theorem c2_counterexample :
    procC2.NFe.InfNFe.Ide.DhEmi = "" ∧
    procC2.NFe.InfNFe.Ide.DEmi = "" ∧
    parseFile envC2 "missing-date.xml" =
      Except.ok (buildParsedFrom envC2.timeParse (buildSrc.proc procC2) [1] "h") ∧
    (buildParsedFrom envC2.timeParse (buildSrc.proc procC2) [1] "h").EmissaoDate = "" :=
  ⟨rfl, rfl, rfl, rfl⟩

/-- C2 amended: the parser does not reject a missing issue date; an
accepted document with empty dhEmi and dEmi yields a ParsedNFe whose
issue_date is empty, and it is the persister (the insertNFe guard) that
then refuses the record with a non-duplicate error, leaving the store
unchanged. -/
theorem c2_amended (env : ParseEnv) (path : String) (data : Bytes) (proc : nfeProc)
    (hread : env.readFile path = Except.ok data)
    (hxsd : xsdStage env data = none)
    (hdec : env.decodeProc data = some proc)
    (hmod : proc.NFe.InfNFe.Ide.Modelo ≠ 0)
    (hdh : proc.NFe.InfNFe.Ide.DhEmi = "")
    (hde : proc.NFe.InfNFe.Ide.DEmi = "") :
    parseFile env path =
      Except.ok (buildParsedFrom env.timeParse (buildSrc.proc proc) data (env.sha256hex data)) ∧
    (buildParsedFrom env.timeParse (buildSrc.proc proc) data (env.sha256hex data)).EmissaoDate = "" ∧
    (∀ denv : DbEnv, ∀ store : Store,
      (SaveNFeWithRelations denv
        (buildParsedFrom env.timeParse (buildSrc.proc proc) data (env.sha256hex data)) store).1 =
        store ∧
      ∃ m : String,
        (SaveNFeWithRelations denv
          (buildParsedFrom env.timeParse (buildSrc.proc proc) data (env.sha256hex data)) store).2 =
          SaveRes.error m) := by
  have hem : (buildParsedFrom env.timeParse (buildSrc.proc proc) data
      (env.sha256hex data)).EmissaoDate = "" := by
    simp [buildParsedFrom, buildSrcParts, hdh, hde, normalizeDateYMD, trimSpace]
  refine ⟨?_, hem, ?_⟩
  · simp [parseFile, hread, hxsd, hdec, hmod]
  · intro denv store
    exact save_error_of_empty_emissao denv _ store (by rw [hem]; rfl)

/-- C2 witness: the amended behavior on a concrete environment. -/
theorem c2_witness :
    parseFile envC2 "missing-date.xml" =
      Except.ok (buildParsedFrom envC2.timeParse (buildSrc.proc procC2) [1] "h") ∧
    (SaveNFeWithRelations denvC2
      (buildParsedFrom envC2.timeParse (buildSrc.proc procC2) [1] "h") []).1 = [] := by
  have h := c2_amended envC2 "missing-date.xml" [1] procC2 rfl rfl rfl (by decide) rfl rfl
  exact ⟨h.1, (h.2.2 denvC2 []).1⟩

/-- C3 counterexample: with a non-empty but digit-free chNFe and the
identifier NFe123, the accepted invoice carries the 3-character access
key 123 taken from the identifier, refuting both the 44-digit guarantee
and the take-chNFe-whenever-non-empty selection. -/
theorem c3_counterexample :
    procC3.ProtNFe = some { InfProt := { ChNFe := "XYZ" } } ∧
    ("XYZ" : String) ≠ "" ∧
    parseFile envC3 "short-key.xml" =
      Except.ok (buildParsedFrom envC3.timeParse (buildSrc.proc procC3) [1] "h") ∧
    (buildParsedFrom envC3.timeParse (buildSrc.proc procC3) [1] "h").ChaveAcesso = "123" ∧
    (buildParsedFrom envC3.timeParse (buildSrc.proc procC3) [1] "h").ChaveAcesso.length ≠ 44 := by
  refine ⟨rfl, by decide, rfl, rfl, by decide⟩

/-- C3 amended: every accepted invoice has an all-digit access key (with
no length check, so not necessarily 44 digits); the key is the
digit-filtered chNFe when the envelope is present and that filtering is
non-empty, and otherwise the digit-filtered identifier with the NFe
lead-in stripped. -/
theorem c3_amended :
    (∀ env : ParseEnv, ∀ path : String, ∀ p : ParsedNFe,
      parseFile env path = Except.ok p → p.ChaveAcesso.data.all Char.isDigit = true) ∧
    (∀ tp : String → Option String, ∀ v : buildSrc, ∀ raw : Bytes, ∀ hh : String,
      ∀ pr : protNFe, (buildSrcParts v).2 = some pr →
      onlyDigits pr.InfProt.ChNFe ≠ "" →
      (buildParsedFrom tp v raw hh).ChaveAcesso = onlyDigits pr.InfProt.ChNFe) ∧
    (∀ tp : String → Option String, ∀ v : buildSrc, ∀ raw : Bytes, ∀ hh : String,
      ∀ pr : protNFe, (buildSrcParts v).2 = some pr →
      onlyDigits pr.InfProt.ChNFe = "" →
      (buildParsedFrom tp v raw hh).ChaveAcesso =
        onlyDigits (extractChave (buildSrcParts v).1.ID)) ∧
    (∀ tp : String → Option String, ∀ v : buildSrc, ∀ raw : Bytes, ∀ hh : String,
      (buildSrcParts v).2 = none →
      (buildParsedFrom tp v raw hh).ChaveAcesso =
        onlyDigits (extractChave (buildSrcParts v).1.ID)) := by
  refine ⟨?_, ?_, ?_, ?_⟩
  · intro env path p h
    obtain ⟨v, data, rfl⟩ := parseFile_ok_shape env path p h
    obtain ⟨s, hs⟩ := chave_is_onlyDigits env.timeParse v data (env.sha256hex data)
    rw [hs]
    exact onlyDigits_all_digits s
  · intro tp v raw hh pr hpr hd
    cases v with
    | proc t =>
      simp only [buildSrcParts] at hpr
      have hch : pr.InfProt.ChNFe ≠ "" := by
        intro h0
        exact hd (by rw [h0]; rfl)
      simp [buildParsedFrom, buildSrcParts, hpr, hch, hd]
    | bare n => simp only [buildSrcParts] at hpr; cases hpr
  · intro tp v raw hh pr hpr hd
    cases v with
    | proc t =>
      simp only [buildSrcParts] at hpr
      by_cases hch : pr.InfProt.ChNFe = ""
      · simp [buildParsedFrom, buildSrcParts, hpr, hch]
      · simp [buildParsedFrom, buildSrcParts, hpr, hch, hd]
    | bare n => simp only [buildSrcParts] at hpr; cases hpr
  · intro tp v raw hh hpr
    cases v with
    | proc t =>
      simp only [buildSrcParts] at hpr
      simp [buildParsedFrom, buildSrcParts, hpr]
    | bare n => simp [buildParsedFrom, buildSrcParts]

/-- C3 witness: the all-digit property on a concretely parsed invoice. -/
theorem c3_witness :
    (buildParsedFrom envC3.timeParse (buildSrc.proc procC3) [1] "h").ChaveAcesso.data.all
      Char.isDigit = true :=
  (c3_amended).1 envC3 "short-key.xml" _ rfl

/-- C4 amended: on handler success the delivery is acked; on handler
error the retry count is read from the x-retries header (missing table
or key is 0, int32 and int64 values are taken as is, float values are
truncated, every other type is 0), and retries below max_retries
(default 3) republish the original body with the incremented header and
ack, while exhausted retries nack without requeue toward the DLQ. -/
theorem c4_retry_policy (decoded : Option Job) (handler : Job → Option String)
    (maxRetries : Int) (msg : Delivery) :
    (∀ job : Job, decoded = some job → handler job = none →
      consumeStep decoded handler maxRetries msg = ConsumeAct.ackOk) ∧
    (∀ job : Job, ∀ e : String, decoded = some job → handler job = some e →
      ((extractRetries msg.headers < maxRetries →
        consumeStep decoded handler maxRetries msg =
          ConsumeAct.republishAck msg.body
            (tblSet (msg.headers.getD []) "x-retries"
              (AmqpVal.vi32 (wrap32 (extractRetries msg.headers + 1))))) ∧
      (¬ extractRetries msg.headers < maxRetries →
        consumeStep decoded handler maxRetries msg = ConsumeAct.nackDLQ))) ∧
    extractRetries none = 0 ∧
    (∀ t : Headers, tblGet t "x-retries" = none → extractRetries (some t) = 0) ∧
    (∀ t : Headers, ∀ n : Int, tblGet t "x-retries" = some (AmqpVal.vi32 n) →
      extractRetries (some t) = n) ∧
    (∀ t : Headers, ∀ n : Int, tblGet t "x-retries" = some (AmqpVal.vi64 n) →
      extractRetries (some t) = n) ∧
    maxRetriesCfg "" = 3 := by
  refine ⟨?_, ?_, rfl, ?_, ?_, ?_, rfl⟩
  · intro job h1 h2
    simp [consumeStep, h1, h2]
  · intro job e h1 h2
    constructor
    · intro hlt
      cases hh : msg.headers with
      | none => simp [consumeStep, h1, h2, hh] at hlt ⊢; simp [hlt]
      | some t => simp [consumeStep, h1, h2, hh] at hlt ⊢; simp [hlt]
    · intro hge
      simp [consumeStep, h1, h2, hge]
  · intro t h
    simp [extractRetries, h]
  · intro t n h
    simp [extractRetries, h]
  · intro t n h
    simp [extractRetries, h]

/-- C4 counterexample: a retry header delivered as an AMQP short int
(int16) with value 3 is a numeric representation, yet extractRetries
reads it as 0, so at max_retries 3 the delivery is republished with
x-retries 1 instead of being nacked to the dead-letter queue as the
claim requires. -/
theorem c4_counterexample :
    specExtractRetries (some hdrsC4) = 3 ∧
    extractRetries (some hdrsC4) = 0 ∧
    consumeStep (some jobC4) (fun _ => some "handler failure") 3
        { body := "b", headers := some hdrsC4 } =
      ConsumeAct.republishAck "b" [("x-retries", AmqpVal.vi32 1)] ∧
    consumeStep (some jobC4) (fun _ => some "handler failure") 3
        { body := "b", headers := some hdrsC4 } ≠ ConsumeAct.nackDLQ := by
  refine ⟨rfl, rfl, by decide, by decide⟩

/-- C4 witness: a failing handler with no headers republishes with
x-retries 1 and acks on a concrete delivery. -/
theorem c4_witness :
    consumeStep (some jobC4) (fun _ => some "boom") 3 { body := "b", headers := none } =
      ConsumeAct.republishAck "b" [("x-retries", AmqpVal.vi32 1)] := by
  have h := ((c4_retry_policy (some jobC4) (fun _ => some "boom") 3
    { body := "b", headers := none }).2.1 jobC4 "boom" rfl rfl).1 (by decide)
  rw [h]
  decide

/-- C5: the stability check over 5 attempts returns true exactly when two
consecutive samples (both taken within the budget, all earlier samples
present) return the same positive size; a file whose check fails is
dropped by handleIncomingFile without promotion or publication; the
attempt budget is 5 and the inter-sample delay is 200ms. -/
theorem c5_stability_check (stat : SizeSamples) :
    (waitFileStable stat stableAttemptsDef = true ↔
      ∃ k : Nat, k + 1 < stableAttemptsDef ∧
        (∀ j : Nat, j ≤ k + 1 → (stat j).isSome) ∧
        ∃ s : Int, stat k = some s ∧ stat (k + 1) = some s ∧ 0 < s) ∧
    (∀ filename : String,
      isZoneIdentifier filename = false →
      (toLowerStr (extOf filename) = ".xml" ∨ toLowerStr (extOf filename) = ".zip") →
      waitFileStable stat stableAttemptsDef = false →
      handleIncomingFile stat stableAttemptsDef filename = WatchAct.dropUnstable) ∧
    stableAttemptsDef = 5 ∧ stableDelayMsDef = 200 := by
  refine ⟨⟨?_, ?_⟩, ?_, rfl, rfl⟩
  · intro h
    rcases pair_of_waitLoop stat stableAttemptsDef 0 (-1) h with
      ⟨s, _, hs, hseq⟩ | ⟨k, hk, hall, s, h1, h2, hs⟩
    · omega
    · refine ⟨k, hk, ?_, s, ?_, ?_, hs⟩
      · intro j hj; simpa using hall j hj
      · simpa using h1
      · simpa using h2
  · rintro ⟨k, hk, hall, s, h1, h2, hs⟩
    exact waitLoop_of_pair stat k stableAttemptsDef 0 (-1) s hk
      (fun j hj => by simpa using hall j hj) (by simpa using h1) (by simpa using h2) hs
  · intro filename hzone hext hstable
    rcases hext with hx | hx
    · simp [handleIncomingFile, hzone, hx, hstable]
    · simp [handleIncomingFile, hzone, hx, hstable]

/-- C5 witness: a file whose size samples never turn positive is dropped
without promotion. -/
theorem c5_witness :
    handleIncomingFile (fun _ => some 0) stableAttemptsDef "a.xml" = WatchAct.dropUnstable :=
  (c5_stability_check (fun _ => some 0)).2.1 "a.xml" (by decide) (Or.inl (by decide)) (by decide)

/-- C6: after a successful read and XSD stage, parseFile accepts the
nfeProc decode exactly when its model is non-zero, otherwise accepts the
bare NFe decode under the same test, and otherwise fails with the
unrecognized-format error; in particular a document whose model is zero
or missing in both decodes produces a parse error. -/
theorem c6_dual_root_attempts (env : ParseEnv) (path : String) (data : Bytes)
    (hread : env.readFile path = Except.ok data)
    (hxsd : xsdStage env data = none) :
    (∀ proc : nfeProc, env.decodeProc data = some proc → proc.NFe.InfNFe.Ide.Modelo ≠ 0 →
      parseFile env path =
        Except.ok (buildParsedFrom env.timeParse (buildSrc.proc proc) data (env.sha256hex data))) ∧
    ((∀ proc : nfeProc, env.decodeProc data = some proc → proc.NFe.InfNFe.Ide.Modelo = 0) →
      ∀ n : nfeDoc, env.decodeNfe data = some n → n.InfNFe.Ide.Modelo ≠ 0 →
      parseFile env path =
        Except.ok (buildParsedFrom env.timeParse (buildSrc.bare n) data (env.sha256hex data))) ∧
    ((∀ proc : nfeProc, env.decodeProc data = some proc → proc.NFe.InfNFe.Ide.Modelo = 0) →
      (∀ n : nfeDoc, env.decodeNfe data = some n → n.InfNFe.Ide.Modelo = 0) →
      parseFile env path = Except.error
        ("XML nao reconhecido como nfeProc ou NFe (arquivo: " ++ path ++ ")")) := by
  refine ⟨?_, ?_, ?_⟩
  · intro proc hdp hmod
    simp [parseFile, hread, hxsd, hdp, hmod]
  · intro hrej n hdn hmod
    cases hdp : env.decodeProc data with
    | none => simp [parseFile, tryBareNFe, hread, hxsd, hdp, hdn, hmod]
    | some proc =>
      have h0 := hrej proc hdp
      simp [parseFile, tryBareNFe, hread, hxsd, hdp, h0, hdn, hmod]
  · intro hrejp hrejn
    cases hdp : env.decodeProc data with
    | none =>
      cases hdn : env.decodeNfe data with
      | none => simp [parseFile, tryBareNFe, hread, hxsd, hdp, hdn]
      | some n => simp [parseFile, tryBareNFe, hread, hxsd, hdp, hdn, hrejn n hdn]
    | some proc =>
      cases hdn : env.decodeNfe data with
      | none => simp [parseFile, tryBareNFe, hread, hxsd, hdp, hdn, hrejp proc hdp]
      | some n =>
        simp [parseFile, tryBareNFe, hread, hxsd, hdp, hdn, hrejp proc hdp, hrejn n hdn]

/-- C6 witness: a decoded envelope with model 55 is accepted on a
concrete environment. -/
theorem c6_witness :
    parseFile envC6 "f.xml" =
      Except.ok (buildParsedFrom envC6.timeParse
        (buildSrc.proc { NFe := { InfNFe := { Ide := { Modelo := 55 } } } }) [1] "h") :=
  (c6_dual_root_attempts envC6 "f.xml" [1] rfl rfl).1 _ rfl (by decide)

/-- C7 counterexample: a group holding both ICMS30 and ICMS70 is
extracted as an ICMS30 (ST-only fill) by the source, while the spec
order would pick ICMS70 and fill all four dimensions. -/
theorem c7_counterexample :
    extractICMS gC7 = (0, 0, 5, 6) ∧
    specOrderICMS gC7 = (1, 2, 3, 4) ∧
    extractICMS gC7 ≠ specOrderICMS gC7 := by
  refine ⟨by decide, by decide, by decide⟩

/-- C7 amended: the variants are checked in the source order (ICMS00,
ICMS20, ICMS51, ICMS10, ICMS30, ICMS70, ICMS90, ICMSPart, ICMSSN201,
ICMSSN202, ICMSSN500, ICMSSN900); for every group holding exactly one
recognized variant the filled dimensions agree with the table of the
spec (and with the spec-order extractor), unfilled dimensions stay 0,
and item records take the four dimensions from extractICMS. -/
theorem c7_amended :
    (∀ x : icmsVal, extractICMS { ICMS00 := some x } =
        (parseFloatGo x.VBC, parseFloatGo x.VICMS, 0, 0) ∧
      specOrderICMS { ICMS00 := some x } =
        (parseFloatGo x.VBC, parseFloatGo x.VICMS, 0, 0)) ∧
    (∀ x : icmsVal, extractICMS { ICMS20 := some x } =
        (parseFloatGo x.VBC, parseFloatGo x.VICMS, 0, 0) ∧
      specOrderICMS { ICMS20 := some x } =
        (parseFloatGo x.VBC, parseFloatGo x.VICMS, 0, 0)) ∧
    (∀ x : icmsVal, extractICMS { ICMS51 := some x } =
        (parseFloatGo x.VBC, parseFloatGo x.VICMS, 0, 0) ∧
      specOrderICMS { ICMS51 := some x } =
        (parseFloatGo x.VBC, parseFloatGo x.VICMS, 0, 0)) ∧
    (∀ x : icmsSTVal, extractICMS { ICMS10 := some x } =
        (parseFloatGo x.VBC, parseFloatGo x.VICMS, parseFloatGo x.VBCST, parseFloatGo x.VICMSST) ∧
      specOrderICMS { ICMS10 := some x } =
        (parseFloatGo x.VBC, parseFloatGo x.VICMS, parseFloatGo x.VBCST, parseFloatGo x.VICMSST)) ∧
    (∀ x : icmsSTVal, extractICMS { ICMS70 := some x } =
        (parseFloatGo x.VBC, parseFloatGo x.VICMS, parseFloatGo x.VBCST, parseFloatGo x.VICMSST) ∧
      specOrderICMS { ICMS70 := some x } =
        (parseFloatGo x.VBC, parseFloatGo x.VICMS, parseFloatGo x.VBCST, parseFloatGo x.VICMSST)) ∧
    (∀ x : icmsSTVal, extractICMS { ICMS90 := some x } =
        (parseFloatGo x.VBC, parseFloatGo x.VICMS, parseFloatGo x.VBCST, parseFloatGo x.VICMSST) ∧
      specOrderICMS { ICMS90 := some x } =
        (parseFloatGo x.VBC, parseFloatGo x.VICMS, parseFloatGo x.VBCST, parseFloatGo x.VICMSST)) ∧
    (∀ x : icmsSTVal, extractICMS { ICMSPart := some x } =
        (parseFloatGo x.VBC, parseFloatGo x.VICMS, parseFloatGo x.VBCST, parseFloatGo x.VICMSST) ∧
      specOrderICMS { ICMSPart := some x } =
        (parseFloatGo x.VBC, parseFloatGo x.VICMS, parseFloatGo x.VBCST, parseFloatGo x.VICMSST)) ∧
    (∀ x : icmsSTVal, extractICMS { ICMSSN900 := some x } =
        (parseFloatGo x.VBC, parseFloatGo x.VICMS, parseFloatGo x.VBCST, parseFloatGo x.VICMSST) ∧
      specOrderICMS { ICMSSN900 := some x } =
        (parseFloatGo x.VBC, parseFloatGo x.VICMS, parseFloatGo x.VBCST, parseFloatGo x.VICMSST)) ∧
    (∀ x : icmsSTVal, extractICMS { ICMS30 := some x } =
        (0, 0, parseFloatGo x.VBCST, parseFloatGo x.VICMSST) ∧
      specOrderICMS { ICMS30 := some x } =
        (0, 0, parseFloatGo x.VBCST, parseFloatGo x.VICMSST)) ∧
    (∀ x : icmsSTVal, extractICMS { ICMSSN201 := some x } =
        (0, 0, parseFloatGo x.VBCST, parseFloatGo x.VICMSST) ∧
      specOrderICMS { ICMSSN201 := some x } =
        (0, 0, parseFloatGo x.VBCST, parseFloatGo x.VICMSST)) ∧
    (∀ x : icmsSTVal, extractICMS { ICMSSN202 := some x } =
        (0, 0, parseFloatGo x.VBCST, parseFloatGo x.VICMSST) ∧
      specOrderICMS { ICMSSN202 := some x } =
        (0, 0, parseFloatGo x.VBCST, parseFloatGo x.VICMSST)) ∧
    (∀ x : icmsSTOnly, extractICMS { ICMSSN500 := some x } =
        (0, 0, parseFloatGo x.VBCST, parseFloatGo x.VICMSST) ∧
      specOrderICMS { ICMSSN500 := some x } =
        (0, 0, parseFloatGo x.VBCST, parseFloatGo x.VICMSST)) ∧
    (∀ x : icmsSimple, extractICMS { ICMS40 := some x } = (0, 0, 0, 0) ∧
      specOrderICMS { ICMS40 := some x } = (0, 0, 0, 0)) ∧
    (∀ x : icmsSimple, extractICMS { ICMSSN101 := some x } = (0, 0, 0, 0) ∧
      specOrderICMS { ICMSSN101 := some x } = (0, 0, 0, 0)) ∧
    (∀ x : icmsSimple, extractICMS { ICMSSN102 := some x } = (0, 0, 0, 0) ∧
      specOrderICMS { ICMSSN102 := some x } = (0, 0, 0, 0)) ∧
    (extractICMS {} = (0, 0, 0, 0) ∧ specOrderICMS {} = (0, 0, 0, 0)) ∧
    (∀ d : detDoc,
      (buildItemFromDet d).BaseCalculoICMS = (extractICMS d.Imposto.ICMS).1 ∧
      (buildItemFromDet d).ValorICMS = (extractICMS d.Imposto.ICMS).2.1 ∧
      (buildItemFromDet d).BaseCalculoICMSST = (extractICMS d.Imposto.ICMS).2.2.1 ∧
      (buildItemFromDet d).ValorICMSST = (extractICMS d.Imposto.ICMS).2.2.2) := by
  refine ⟨fun x => ⟨rfl, rfl⟩, fun x => ⟨rfl, rfl⟩, fun x => ⟨rfl, rfl⟩,
    fun x => ⟨rfl, rfl⟩, fun x => ⟨rfl, rfl⟩, fun x => ⟨rfl, rfl⟩,
    fun x => ⟨rfl, rfl⟩, fun x => ⟨rfl, rfl⟩, fun x => ⟨rfl, rfl⟩,
    fun x => ⟨rfl, rfl⟩, fun x => ⟨rfl, rfl⟩, fun x => ⟨rfl, rfl⟩,
    fun x => ⟨rfl, rfl⟩, fun x => ⟨rfl, rfl⟩, fun x => ⟨rfl, rfl⟩,
    ⟨rfl, rfl⟩, fun d => ⟨rfl, rfl, rfl, rfl⟩⟩

/-- C8 counterexample: a header total of -1 parses to a negative
monetary value, refuting the non-negativity claim. -/
theorem c8_counterexample :
    parseFile envC8 "negative-total.xml" =
      Except.ok (buildParsedFrom envC8.timeParse (buildSrc.proc procC8) [1] "h") ∧
    (buildParsedFrom envC8.timeParse (buildSrc.proc procC8) [1] "h").ValorTotalNota = -1 ∧
    (buildParsedFrom envC8.timeParse (buildSrc.proc procC8) [1] "h").ValorTotalNota < 0 := by
  refine ⟨rfl, by decide, by decide⟩

/-- C8 amended: monetary fields are parseFloat images of their XML
elements: commas and dots are interchangeable decimal separators, absent
or whitespace-only or unparsable strings give 0, but the sign of the
source string is preserved, so a field can be negative. -/
theorem c8_amended :
    (∀ s : String, parseFloatGo (commaToDot s) = parseFloatGo s) ∧
    parseFloatGo "" = 0 ∧
    (∀ s : String, trimSpace s = "" → parseFloatGo s = 0) ∧
    (∀ s : String, decFloatVal (commaToDot (trimSpace s)).data = none → parseFloatGo s = 0) ∧
    (∀ tp : String → Option String, ∀ v : buildSrc, ∀ raw : Bytes, ∀ hh : String,
      (buildParsedFrom tp v raw hh).ValorTotalNota =
        parseFloatGo (buildSrcParts v).1.Total.ICMSTot.VNF ∧
      (buildParsedFrom tp v raw hh).ValorProdutos =
        parseFloatGo (buildSrcParts v).1.Total.ICMSTot.VProd ∧
      (buildParsedFrom tp v raw hh).ValorICMS =
        parseFloatGo (buildSrcParts v).1.Total.ICMSTot.VICMS) ∧
    (∀ d : detDoc, (buildItemFromDet d).ValorTotalBruto = parseFloatGo d.Prod.VProd) := by
  refine ⟨?_, rfl, ?_, ?_, ?_, ?_⟩
  · intro s
    unfold parseFloatGo
    rw [commaToDot_trimSpace]
    by_cases ht : trimSpace s = ""
    · simp [ht, commaToDot]
    · have ht2 : commaToDot (trimSpace s) ≠ "" :=
        fun h => ht ((commaToDot_eq_empty_iff _).mp h)
      simp only [ht, ht2, if_false, commaToDot_idem]
  · intro s h
    unfold parseFloatGo
    simp [h]
  · intro s h
    unfold parseFloatGo
    by_cases ht : trimSpace s = ""
    · simp [ht]
    · simp [ht, h]
  · intro tp v raw hh
    exact ⟨rfl, rfl, rfl⟩
  · intro d
    rfl

/-- C8 witness: a whitespace-only monetary string parses to 0. -/
theorem c8_witness : parseFloatGo "  " = 0 :=
  (c8_amended).2.2.1 "  " (by decide)

/-- C9: with a fixed environment (decoders, schema configuration, hash),
two runs of parseFile are equal, and two paths whose reads return the
same bytes produce the same parsed invoice (the successful payload
depends only on the bytes). -/
theorem c9_parse_deterministic (env : ParseEnv) :
    (∀ path : String, parseFile env path = parseFile env path) ∧
    (∀ p1 p2 : String, ∀ b : Bytes,
      env.readFile p1 = Except.ok b → env.readFile p2 = Except.ok b →
      (parseFile env p1).toOption = (parseFile env p2).toOption) := by
  refine ⟨fun _ => rfl, ?_⟩
  intro p1 p2 b h1 h2
  simp only [parseFile, h1, h2]
  cases hx : xsdStage env b with
  | some e => simp [Except.toOption]
  | none =>
    cases hdp : env.decodeProc b with
    | some proc =>
      by_cases hm : proc.NFe.InfNFe.Ide.Modelo = 0
      · simp only [hm, ne_eq, not_true_eq_false, if_false]
        cases hdn : env.decodeNfe b with
        | none => simp [tryBareNFe, hdn, Except.toOption]
        | some n =>
          by_cases hm2 : n.InfNFe.Ide.Modelo = 0
          · simp [tryBareNFe, hdn, hm2, Except.toOption]
          · simp [tryBareNFe, hdn, hm2]
      · simp [hm]
    | none =>
      cases hdn : env.decodeNfe b with
      | none => simp [tryBareNFe, hdn, Except.toOption]
      | some n =>
        by_cases hm2 : n.InfNFe.Ide.Modelo = 0
        · simp [tryBareNFe, hdn, hm2, Except.toOption]
        · simp [tryBareNFe, hdn, hm2]

/-- C9 witness: two concrete runs over the same bytes agree. -/
theorem c9_witness :
    (parseFile envC9 "runA.xml").toOption = (parseFile envC9 "runB.xml").toOption :=
  (c9_parse_deterministic envC9).2 "runA.xml" "runB.xml" [2] rfl rfl

/-- C10: in the polling fallback, a regular file in processing whose
lowercased extension is neither .xml nor .zip is moved to processed
(its direct destination is the processed directory, not ignored or
failed), with no parse, no database write and no metric. -/
theorem c10_unknown_ext_processed (stat : String → Option StatInfo) (srcPath : String)
    (info : StatInfo) (hstat : stat srcPath = some info) (hdir : info.isDir = false)
    (hxml : toLowerStr (extOf (baseOf srcPath)) ≠ ".xml")
    (hzip : toLowerStr (extOf (baseOf srcPath)) ≠ ".zip") :
    handleProcessingFile stat srcPath = ProcAct.moveProcessed srcPath (baseOf srcPath) ∧
    actParses (handleProcessingFile stat srcPath) = false ∧
    actWritesDb (handleProcessingFile stat srcPath) = false ∧
    actEmitsMetric (handleProcessingFile stat srcPath) = false ∧
    actDest (handleProcessingFile stat srcPath) = some TermDir.processed := by
  have hact : handleProcessingFile stat srcPath = ProcAct.moveProcessed srcPath (baseOf srcPath) := by
    simp [handleProcessingFile, hstat, hdir, hxml, hzip]
  rw [hact]
  exact ⟨rfl, rfl, rfl, rfl, rfl⟩

/-- C10 witness: a concrete text file in processing is moved to processed
with no metric. -/
theorem c10_witness :
    handleProcessingFile (fun _ => some { isDir := false }) "processing/notes.txt" =
      ProcAct.moveProcessed "processing/notes.txt" (baseOf "processing/notes.txt") ∧
    actEmitsMetric (handleProcessingFile (fun _ => some { isDir := false })
      "processing/notes.txt") = false := by
  have h := c10_unknown_ext_processed (fun _ => some { isDir := false })
    "processing/notes.txt" { isDir := false } rfl rfl (by decide) (by decide)
  exact ⟨h.1, h.2.2.2.1⟩

end NfeDrop
